import Mathlib

/-!
Verification development for the BIND9 Terraform provider's record codec and
record-reconciliation logic (`internal/provider/resource_record.go`,
`internal/provider/resource_zone.go`).

The Go provider is embedded shallowly: the pure helpers (`buildRecordData`,
`setComputedAttributes`, `parseInt64`, Go's `strings.SplitN`/`strings.Trim`)
become Lean functions on `String`/`List`, and the effectful CRUD methods
(`Update`, `Delete`, `Read`, zone `Create`) become functions that take the
remote BIND9 API's responses as explicit oracles and return the trace of
remote calls together with the resulting Terraform state.
-/

namespace Bind9

/-! ### Go string helpers -/

/-- Index of the first space in a character list, when one exists:
the split point used by Go's `strings.SplitN(s, " ", n)`. -/
def splitFirstSpace : List Char → Option (List Char × List Char)
  | [] => none
  | c :: cs =>
    if c = ' ' then some ([], cs)
    else
      match splitFirstSpace cs with
      | none => none
      | some (l, r) => some (c :: l, r)

/-- Split a character list on single spaces into at most `n` pieces
(the last piece keeps any remaining spaces), as Go's `strings.SplitN`
does for a one-character separator. -/
def splitNChars : Nat → List Char → List (List Char)
  | 0, cs => [cs]
  | 1, cs => [cs]
  | n + 2, cs =>
    match splitFirstSpace cs with
    | none => [cs]
    | some (l, r) => l :: splitNChars (n + 1) r

/-- Go's `strings.SplitN(s, " ", n)`. -/
def splitN (s : String) (n : Nat) : List String :=
  (splitNChars n s.data).map (fun cs => String.mk cs)

/-- Go's `strings.Trim(s, "\"")`: strip leading and trailing double quotes. -/
def trimQuotes (s : String) : String :=
  String.mk (((s.data.dropWhile (fun c => c = '"')).reverse.dropWhile
    (fun c => c = '"')).reverse)

/-- Whether `pat` occurs as a contiguous substring of `s`
(Go's `strings.Contains`). -/
def containsSubstr (s pat : String) : Bool :=
  go s.data pat.data
where
  go : List Char → List Char → Bool
    | cs, p =>
      if List.isPrefixOf p cs then true
      else
        match cs with
        | [] => false
        | _ :: rest => go rest p

/-- Accumulate decimal digits into a natural number. -/
def digitsToNat : List Char → Nat → Nat
  | [], acc => acc
  | c :: cs, acc => digitsToNat cs (acc * 10 + (c.toNat - Char.toNat '0'))

/-- The provider's `parseInt64` helper, `fmt.Sscanf(s, "%d", &v)`:
skip leading spaces, read an optional sign and a non-empty run of decimal
digits (trailing characters are ignored), failing when no digit is found. -/
def parseInt64 (s : String) : Option Int :=
  let cs := s.data.dropWhile (fun c => c = ' ')
  match cs with
  | '-' :: rest => (parseDigits rest).map (fun n => -(n : Int))
  | '+' :: rest => (parseDigits rest).map (fun n => (n : Int))
  | _ => (parseDigits cs).map (fun n => (n : Int))
where
  parseDigits (cs : List Char) : Option Nat :=
    let ds := cs.takeWhile Char.isDigit
    if ds = [] then none else some (digitsToNat ds 0)

/-! ### Record codec: `buildRecordData` and `setComputedAttributes` -/

/-- The `data` map of a `RecordCreateRequest`, modelled as an association
list in insertion order (`buildRecordData` in `resource_record.go`). -/
def buildRecordData (recordType rdata : String) : List (String × String) :=
  if recordType = "A" ∨ recordType = "AAAA" then
    [("address", rdata)]
  else if recordType = "CNAME" ∨ recordType = "DNAME" then
    [("target", rdata)]
  else if recordType = "NS" then
    [("nameserver", rdata)]
  else if recordType = "PTR" then
    [("ptrdname", rdata)]
  else if recordType = "MX" then
    let parts := splitN rdata 2
    if parts.length = 2 then
      [("preference", parts.getD 0 ""), ("exchange", parts.getD 1 "")]
    else []
  else if recordType = "TXT" then
    [("text", trimQuotes rdata)]
  else if recordType = "SRV" then
    let parts := splitN rdata 4
    if parts.length = 4 then
      [("priority", parts.getD 0 ""), ("weight", parts.getD 1 ""),
       ("port", parts.getD 2 ""), ("target", parts.getD 3 "")]
    else []
  else if recordType = "CAA" then
    let parts := splitN rdata 3
    if parts.length = 3 then
      [("flags", parts.getD 0 ""), ("tag", parts.getD 1 ""),
       ("value", trimQuotes (parts.getD 2 ""))]
    else []
  else
    [("rdata", rdata)]

/-- The nine convenience attributes of a `RecordResourceModel`
(address, target, priority, weight, port, text, flags, tag, value). -/
structure ComputedAttrs where
  address : String
  target : String
  priority : Int
  weight : Int
  port : Int
  text : String
  flags : Int
  tag : String
  value : String
deriving DecidableEq, Repr

/-- The values `setComputedAttributes` starts from: empty strings and
zeroes, never null. -/
def defaultAttrs : ComputedAttrs :=
  { address := "", target := "", priority := 0, weight := 0, port := 0,
    text := "", flags := 0, tag := "", value := "" }

/-- `setComputedAttributes` from `resource_record.go`: populate the
convenience attributes from the record type and the first record value. -/
def setComputedAttributes (recordType : String) (records : List String) :
    ComputedAttrs :=
  match records with
  | [] => defaultAttrs
  | rdata :: _ =>
    if recordType = "A" ∨ recordType = "AAAA" then
      { defaultAttrs with address := rdata }
    else if recordType = "CNAME" ∨ recordType = "DNAME" ∨
        recordType = "NS" ∨ recordType = "PTR" then
      { defaultAttrs with target := rdata }
    else if recordType = "TXT" then
      { defaultAttrs with text := trimQuotes rdata }
    else if recordType = "MX" then
      let parts := splitN rdata 2
      if parts.length = 2 then
        let withPrio :=
          match parseInt64 (parts.getD 0 "") with
          | some p => { defaultAttrs with priority := p }
          | none => defaultAttrs
        { withPrio with target := parts.getD 1 "" }
      else defaultAttrs
    else if recordType = "SRV" then
      let parts := splitN rdata 4
      if parts.length = 4 then
        let a0 :=
          match parseInt64 (parts.getD 0 "") with
          | some p => { defaultAttrs with priority := p }
          | none => defaultAttrs
        let a1 :=
          match parseInt64 (parts.getD 1 "") with
          | some w => { a0 with weight := w }
          | none => a0
        let a2 :=
          match parseInt64 (parts.getD 2 "") with
          | some p => { a1 with port := p }
          | none => a1
        { a2 with target := parts.getD 3 "" }
      else defaultAttrs
    else if recordType = "CAA" then
      let parts := splitN rdata 3
      if parts.length = 3 then
        let withFlags :=
          match parseInt64 (parts.getD 0 "") with
          | some f => { defaultAttrs with flags := f }
          | none => defaultAttrs
        { withFlags with tag := parts.getD 1 "",
                         value := trimQuotes (parts.getD 2 "") }
      else defaultAttrs
    else defaultAttrs

/-! ### Reconciliation: the diff computed by `Update` -/

/-- The record values `Update` deletes: old values absent from the new
list (the first nested loop of `Update`). -/
def toRemove (oldRecords newRecords : List String) : List String :=
  oldRecords.filter (fun v => decide (v ∉ newRecords))

/-- The record values `Update` creates: new values absent from the old
list (the second nested loop of `Update`). -/
def toAdd (oldRecords newRecords : List String) : List String :=
  newRecords.filter (fun v => decide (v ∉ oldRecords))

/-- One entry of a change plan: remove or add a single rdata value. -/
inductive ChangeAction where
  | remove (v : String)
  | add (v : String)
deriving DecidableEq, Repr

/-- The ordered change plan of `Update`: every removal (in old-list order),
then every addition (in new-list order). -/
def changePlan (oldRecords newRecords : List String) : List ChangeAction :=
  (toRemove oldRecords newRecords).map ChangeAction.remove ++
    (toAdd oldRecords newRecords).map ChangeAction.add

/-- One remote BIND9 API call issued by the record resource. -/
inductive ApiCall where
  | deleteRecord (zone name recordType rdata : String)
  | createRecord (zone name recordType : String) (ttl : Int)
      (recordClass : String) (data : List (String × String))
deriving DecidableEq, Repr

/-- Whether an `ApiCall` is a record deletion. -/
def ApiCall.isDelete : ApiCall → Bool
  | .deleteRecord _ _ _ _ => true
  | .createRecord _ _ _ _ _ _ => false

/-- The exact sequence of remote calls `Update` issues for a plan `plan`
(new records) against a prior state (old records): `DeleteRecord` for every
old value not in the new list, then `CreateRecord` for every new value not
in the old list, the latter carrying the plan's TTL, class and the data map
from `buildRecordData`. -/
def updateCalls (zone name recordType : String) (ttl : Int)
    (recordClass : String) (oldRecords newRecords : List String) :
    List ApiCall :=
  (toRemove oldRecords newRecords).map
      (fun v => ApiCall.deleteRecord zone name recordType v) ++
    (toAdd oldRecords newRecords).map
      (fun v => ApiCall.createRecord zone name recordType ttl recordClass
        (buildRecordData recordType v))

/-! ### Applying the plan against the remote API

The remote API is abstracted as two oracles giving, per rdata value, the
outcome of `client.DeleteRecord` / `client.CreateRecord`: `none` is
success, `some msg` is the error message of the failed call. -/

/-- Remote responses for one `Update`/`Delete` pass. -/
structure Directory where
  delResult : String → Option String
  createResult : String → Option String

/-- The delete loop of `Update`: every pending removal is attempted; a
failed `DeleteRecord` is only logged as a warning (collected here as the
second component) and the loop continues. -/
def applyDeletes (dir : Directory) : List String → List ChangeAction × List String
  | [] => ([], [])
  | v :: vs =>
    let rest := applyDeletes dir vs
    match dir.delResult v with
    | none => (ChangeAction.remove v :: rest.1, rest.2)
    | some e => (ChangeAction.remove v :: rest.1, e :: rest.2)

/-- The create loop of `Update`: additions are attempted in order until
the first failed `CreateRecord`, which aborts the loop and is returned as
the fatal error. -/
def applyCreates (dir : Directory) : List String → List ChangeAction × Option String
  | [] => ([], none)
  | v :: vs =>
    match dir.createResult v with
    | some e => ([], some e)
    | none =>
      let rest := applyCreates dir vs
      (ChangeAction.add v :: rest.1, rest.2)

/-- The whole apply phase of `Update`: delete loop, then create loop.
Returns the attempted actions, the delete warnings, and the fatal error
(`none` when the update completed). -/
def updateApply (dir : Directory) (oldRecords newRecords : List String) :
    List ChangeAction × List String × Option String :=
  let dels := applyDeletes dir (toRemove oldRecords newRecords)
  let crs := applyCreates dir (toAdd oldRecords newRecords)
  (dels.1 ++ crs.1, dels.2, crs.2)

/-- The error test of the resource `Delete` (and of `Read`): an error
whose message contains "404" or "not found" is tolerated. -/
def errTolerated (e : String) : Bool :=
  containsSubstr e "404" || containsSubstr e "not found"

/-- The delete loop of the resource `Delete`: every stored value is
deleted in order; a tolerated (404 / not found) failure is skipped, any
other failure aborts with that error. -/
def deleteApply (delResult : String → Option String) :
    List String → Option String
  | [] => none
  | v :: vs =>
    match delResult v with
    | none => deleteApply delResult vs
    | some e => if errTolerated e then deleteApply delResult vs else some e

/-! ### Directory-state semantics of a successful apply -/

/-- Effect of a successful `DeleteRecord` on the zone's stored values:
every copy of the value is removed. -/
def removeValue (st : List String) (v : String) : List String :=
  st.filter (fun x => decide (x ≠ v))

/-- Zone contents after the delete loop of `Update` ran successfully. -/
def runDeletes : List String → List String → List String
  | st, [] => st
  | st, v :: vs => runDeletes (removeValue st v) vs

/-- Zone contents after the create loop of `Update` ran successfully
(each `CreateRecord` appends its value). -/
def runCreatesOk : List String → List String → List String
  | st, [] => st
  | st, v :: vs => runCreatesOk (st ++ [v]) vs

/-- Zone contents after one fully successful `Update` pass: the deletions
of `toRemove` followed by the creations of `toAdd`, applied to the zone
state `st`. -/
def runUpdateState (st oldRecords newRecords : List String) : List String :=
  runCreatesOk (runDeletes st (toRemove oldRecords newRecords))
    (toAdd oldRecords newRecords)

/-! ### The `Read` path of the record resource -/

/-- The stored Terraform state of one record resource
(`RecordResourceModel`). -/
structure RecordModel where
  id : String
  zone : String
  name : String
  recordType : String
  ttl : Int
  recordClass : String
  records : List String
  attrs : ComputedAttrs
deriving DecidableEq, Repr

/-- One record returned by `client.GetRecords`: its rdata and TTL. -/
structure RecordInfo where
  rdata : String
  ttl : Int
deriving DecidableEq, Repr

/-- Response of `client.GetRecords` for one (zone, name, type) key. -/
inductive ReadResult where
  | apiError (msg : String)
  | ok (records : List RecordInfo)
deriving DecidableEq, Repr

/-- Outcome of the record resource's `Read`. -/
inductive ReadOutcome where
  | removedFromState
  | failed (msg : String)
  | newState (m : RecordModel)
deriving DecidableEq, Repr

/-- `Read` from `resource_record.go`: a 404 / not-found error removes the
resource from state, another error fails; an empty record list keeps the
stored state verbatim; otherwise the state's record list, TTL (from the
first returned record) and convenience attributes are refreshed. -/
def readRecord (state : RecordModel) (resp : ReadResult) : ReadOutcome :=
  match resp with
  | .apiError msg =>
    if errTolerated msg then .removedFromState else .failed msg
  | .ok [] => .newState state
  | .ok (r :: rs) =>
    let recordValues := (r :: rs).map RecordInfo.rdata
    .newState { state with
      records := recordValues
      ttl := r.ttl
      attrs := setComputedAttributes state.recordType recordValues }

/-! ### The zone resource's `Create` path -/

/-- The planned configuration of a `bind9_zone` resource, as `Create`
reads it (nullable attributes are `Option`). -/
structure ZonePlanModel where
  name : String
  zoneType : String
  soaMname : String
  soaRname : String
  soaRefresh : Int
  soaRetry : Int
  soaExpire : Int
  soaMinimum : Int
  defaultTTL : Int
  file : Option String
  nameservers : Option (List String)
  nsAddresses : Option (List (String × String))
  allowUpdate : Option (List String)
  allowTransfer : Option (List String)
  allowQuery : Option (List String)
deriving DecidableEq, Repr

/-- The ACL options block of a `ZoneCreateRequest`. -/
structure ZoneOptions where
  allowUpdate : List String
  allowTransfer : List String
  allowQuery : List String
deriving DecidableEq, Repr

/-- The request body `Create` sends to `client.CreateZone`. -/
structure ZoneCreateRequest where
  name : String
  zoneType : String
  soaMname : String
  soaRname : String
  soaRefresh : Int
  soaRetry : Int
  soaExpire : Int
  soaMinimum : Int
  defaultTTL : Int
  file : String
  nameservers : List String
  nsAddresses : List (String × String)
  options : Option ZoneOptions
deriving DecidableEq, Repr

/-- The request-building phase of the zone `Create`: plan fields are
copied verbatim, the nullable lists only when non-null, and the options
block only when at least one ACL list is non-null.  No validation of any
kind happens here. -/
def buildZoneCreateRequest (plan : ZonePlanModel) : ZoneCreateRequest :=
  let opts : ZoneOptions :=
    { allowUpdate := plan.allowUpdate.getD []
      allowTransfer := plan.allowTransfer.getD []
      allowQuery := plan.allowQuery.getD [] }
  let hasOptions :=
    plan.allowUpdate.isSome || plan.allowTransfer.isSome ||
      plan.allowQuery.isSome
  { name := plan.name
    zoneType := plan.zoneType
    soaMname := plan.soaMname
    soaRname := plan.soaRname
    soaRefresh := plan.soaRefresh
    soaRetry := plan.soaRetry
    soaExpire := plan.soaExpire
    soaMinimum := plan.soaMinimum
    defaultTTL := plan.defaultTTL
    file := plan.file.getD ""
    nameservers := plan.nameservers.getD []
    nsAddresses := plan.nsAddresses.getD []
    options := if hasOptions then some opts else none }

/-- Zone data returned by `client.CreateZone` on success. -/
structure ZoneInfo where
  name : String
  serial : Int
  loaded : Bool
  dnssecEnabled : Bool
  file : String
deriving DecidableEq, Repr

/-- The Terraform state the zone `Create` stores on success. -/
structure ZoneStateModel where
  plan : ZonePlanModel
  id : String
  serial : Int
  loaded : Bool
  dnssecEnabled : Bool
  file : Option String
deriving DecidableEq, Repr

/-- The zone `Create` from `resource_zone.go`: build the request, issue
the single remote `CreateZone` call, and either surface the remote error
or store the returned zone data.  There is no local pre-flight check of
the nameserver/glue data. -/
def zoneCreate (plan : ZonePlanModel)
    (remote : ZoneCreateRequest → Except String ZoneInfo) :
    Except String ZoneStateModel :=
  match remote (buildZoneCreateRequest plan) with
  | .error e => .error ("Could not create zone: " ++ e)
  | .ok zone =>
    .ok { plan := plan
          id := zone.name
          serial := zone.serial
          loaded := zone.loaded
          dnssecEnabled := zone.dnssecEnabled
          file := if zone.file ≠ "" then some zone.file else plan.file }

/-! ### Helper lemmas -/

/-- Membership in `removeValue`: the value is gone, everything else kept. -/
theorem mem_removeValue (st : List String) (v x : String) :
    x ∈ removeValue st v ↔ x ∈ st ∧ x ≠ v := by
  simp [removeValue, List.mem_filter]

/-- Membership after the delete loop: an element survives iff it was in
the state and is not among the deleted values. -/
theorem mem_runDeletes (vs : List String) :
    ∀ (st : List String) (x : String),
      x ∈ runDeletes st vs ↔ x ∈ st ∧ x ∉ vs := by
  induction vs with
  | nil => intro st x; simp [runDeletes]
  | cons v vs ih =>
    intro st x
    rw [runDeletes, ih, mem_removeValue]
    simp [List.mem_cons]
    tauto

/-- The create loop appends the created values in order. -/
theorem runCreatesOk_eq_append (vs : List String) :
    ∀ st : List String, runCreatesOk st vs = st ++ vs := by
  induction vs with
  | nil => intro st; simp [runCreatesOk]
  | cons v vs ih =>
    intro st
    rw [runCreatesOk, ih]
    simp

/-- A value is in the zone after a successful `Update` pass applied from
the state it was planned against iff it is a desired value. -/
theorem mem_runUpdateState_self (observed desired : List String) (x : String) :
    x ∈ runUpdateState observed observed desired ↔ x ∈ desired := by
  rw [runUpdateState, runCreatesOk_eq_append, List.mem_append,
    mem_runDeletes]
  simp only [toRemove, toAdd, List.mem_filter, decide_eq_true_eq]
  by_cases hd : x ∈ desired <;> by_cases ho : x ∈ observed <;> simp [hd, ho]

/-- `toRemove` is empty when every old value is still desired. -/
theorem toRemove_eq_nil (oldRecords newRecords : List String)
    (h : ∀ v ∈ oldRecords, v ∈ newRecords) :
    toRemove oldRecords newRecords = [] := by
  simp only [toRemove, List.filter_eq_nil_iff, decide_eq_true_eq]
  intro v hv
  simp [h v hv]

/-- `toAdd` is empty when every new value is already present. -/
theorem toAdd_eq_nil (oldRecords newRecords : List String)
    (h : ∀ v ∈ newRecords, v ∈ oldRecords) :
    toAdd oldRecords newRecords = [] := by
  simp only [toAdd, List.filter_eq_nil_iff, decide_eq_true_eq]
  intro v hv
  simp [h v hv]

/-- Position of an element in a removals-then-additions concatenation:
the element at index `k` is a deletion iff `k` lies in the removals
segment. -/
theorem get_append_map_isDelete (dels adds : List String)
    (f g : String → ApiCall)
    (hf : ∀ v, (f v).isDelete = true) (hg : ∀ v, (g v).isDelete = false)
    (k : Nat) (hk : k < (dels.map f ++ adds.map g).length) :
    ((dels.map f ++ adds.map g).get ⟨k, hk⟩).isDelete = true ↔
      k < dels.length := by
  rw [List.get_eq_getElem]
  by_cases h : k < dels.length
  · have hk1 : k < (dels.map f).length := by simpa using h
    rw [List.getElem_append_left hk1, List.getElem_map]
    simp [hf, h]
  · have hk2 : (dels.map f).length ≤ k := by simpa using Nat.le_of_not_lt h
    rw [List.getElem_append_right hk2, List.getElem_map]
    simp [hg, h]

/-- Characterization of positions in the `Update` call list: the call at
index `k` is a `DeleteRecord` iff `k` lies in the leading removals
segment. -/
theorem updateCalls_isDelete_iff (zone name recordType : String) (ttl : Int)
    (recordClass : String) (oldRecords newRecords : List String) (k : Nat)
    (hk : k < (updateCalls zone name recordType ttl recordClass oldRecords
      newRecords).length) :
    ((updateCalls zone name recordType ttl recordClass oldRecords
        newRecords).get ⟨k, hk⟩).isDelete = true ↔
      k < (toRemove oldRecords newRecords).length :=
  get_append_map_isDelete (toRemove oldRecords newRecords)
    (toAdd oldRecords newRecords)
    (fun v => ApiCall.deleteRecord zone name recordType v)
    (fun v => ApiCall.createRecord zone name recordType ttl recordClass
      (buildRecordData recordType v))
    (fun _ => rfl) (fun _ => rfl) k hk

/-- The create loop consults only the create oracle: changing the delete
responses changes nothing in it. -/
theorem applyCreates_congr (f g h : String → Option String) :
    ∀ vs : List String, applyCreates ⟨f, h⟩ vs = applyCreates ⟨g, h⟩ vs := by
  intro vs
  induction vs with
  | nil => rfl
  | cons v vs ih =>
    rw [applyCreates, applyCreates]
    cases h v <;> simp [ih]

/-- When every failure reported to the resource `Delete` loop is a 404 /
not-found error, the loop runs to completion and succeeds. -/
theorem deleteApply_tolerated (f : String → Option String) :
    ∀ vs : List String,
      (∀ v ∈ vs, ∀ e, f v = some e → errTolerated e = true) →
      deleteApply f vs = none := by
  intro vs
  induction vs with
  | nil => intro _; rfl
  | cons v vs ih =>
    intro htol
    rw [deleteApply]
    cases hfv : f v with
    | none => exact ih (fun u hu e he => htol u (List.mem_cons_of_mem v hu) e he)
    | some e =>
      show (if errTolerated e = true then deleteApply f vs else some e) = none
      rw [htol v (List.mem_cons_self v vs) e hfv]
      simpa using ih (fun u hu e2 he => htol u (List.mem_cons_of_mem v hu) e2 he)

/-- The create loop on a list whose first failing value is `v`: the
additions before `v` are performed, the failure aborts the loop, and
nothing after `v` is attempted. -/
theorem applyCreates_prefix_error (dir : Directory) (post : List String)
    (v e : String) :
    ∀ pre : List String, (∀ u ∈ pre, dir.createResult u = none) →
      dir.createResult v = some e →
      applyCreates dir (pre ++ v :: post) =
        (pre.map ChangeAction.add, some e) := by
  intro pre
  induction pre with
  | nil =>
    intro _ hv
    rw [List.nil_append, applyCreates, hv]
    rfl
  | cons u pre ih =>
    intro hpre hv
    have hu : dir.createResult u = none := hpre u (List.mem_cons_self _ _)
    rw [List.cons_append, applyCreates, hu,
      ih (fun w hw => hpre w (List.mem_cons_of_mem u hw)) hv]
    rfl

/-- The values `Update` removes are exactly the set difference of the old
and new value sets. -/
theorem toRemove_toFinset (oldRecords newRecords : List String) :
    (toRemove oldRecords newRecords).toFinset =
      oldRecords.toFinset \ newRecords.toFinset := by
  ext v
  simp [toRemove, List.mem_filter, Finset.mem_sdiff]

/-- The values `Update` adds are exactly the set difference of the new
and old value sets. -/
theorem toAdd_toFinset (oldRecords newRecords : List String) :
    (toAdd oldRecords newRecords).toFinset =
      newRecords.toFinset \ oldRecords.toFinset := by
  ext v
  simp [toAdd, List.mem_filter, Finset.mem_sdiff]

/-! ### Claim theorems -/

/-- Claim C4 (confirmed): for duplicate-free desired and observed record
lists, the change plan has exactly one action per differing value — its
length is the cardinality of the symmetric difference, a `Remove v`
occurs iff `v` is only observed, an `Add v` occurs iff `v` is only
desired, the plan has no duplicate action, and a value present on both
sides is the subject of no action at all. -/
theorem changePlan_minimal (oldRecords newRecords : List String)
    (hold : oldRecords.Nodup) (hnew : newRecords.Nodup) :
    (changePlan oldRecords newRecords).length =
      (oldRecords.toFinset \ newRecords.toFinset).card +
        (newRecords.toFinset \ oldRecords.toFinset).card ∧
    (∀ v, ChangeAction.remove v ∈ changePlan oldRecords newRecords ↔
      v ∈ oldRecords ∧ v ∉ newRecords) ∧
    (∀ v, ChangeAction.add v ∈ changePlan oldRecords newRecords ↔
      v ∈ newRecords ∧ v ∉ oldRecords) ∧
    (changePlan oldRecords newRecords).Nodup ∧
    (∀ v, v ∈ oldRecords → v ∈ newRecords →
      ChangeAction.remove v ∉ changePlan oldRecords newRecords ∧
      ChangeAction.add v ∉ changePlan oldRecords newRecords) := by
  have hreml : (toRemove oldRecords newRecords).length =
      (oldRecords.toFinset \ newRecords.toFinset).card := by
    rw [← toRemove_toFinset]
    exact (List.toFinset_card_of_nodup (hold.filter _)).symm
  have haddl : (toAdd oldRecords newRecords).length =
      (newRecords.toFinset \ oldRecords.toFinset).card := by
    rw [← toAdd_toFinset]
    exact (List.toFinset_card_of_nodup (hnew.filter _)).symm
  have hrem_iff : ∀ v, ChangeAction.remove v ∈ changePlan oldRecords newRecords ↔
      v ∈ oldRecords ∧ v ∉ newRecords := by
    intro v
    simp [changePlan, toRemove, toAdd, List.mem_filter]
  have hadd_iff : ∀ v, ChangeAction.add v ∈ changePlan oldRecords newRecords ↔
      v ∈ newRecords ∧ v ∉ oldRecords := by
    intro v
    simp [changePlan, toRemove, toAdd, List.mem_filter]
  refine ⟨?_, hrem_iff, hadd_iff, ?_, ?_⟩
  · simp [changePlan, hreml, haddl]
  · apply List.Nodup.append
    · exact (hold.filter _).map (fun a b hab => by injection hab)
    · exact (hnew.filter _).map (fun a b hab => by injection hab)
    · intro x hx hy
      rcases List.mem_map.mp hx with ⟨a, _, rfl⟩
      rcases List.mem_map.mp hy with ⟨b, _, hba⟩
      cases hba
  · intro v hvo hvn
    exact ⟨fun hmem => ((hrem_iff v).mp hmem).2 hvn,
      fun hmem => ((hadd_iff v).mp hmem).2 hvo⟩

/-- Witness for C4: the plan for observed `["a", "b"]` and desired
`["b", "c"]` has exactly two actions, touching only `"a"` and `"c"`. -/
theorem changePlan_minimal_witness :
    (changePlan ["a", "b"] ["b", "c"]).length =
      ((["a", "b"] : List String).toFinset \
          (["b", "c"] : List String).toFinset).card +
        ((["b", "c"] : List String).toFinset \
          (["a", "b"] : List String).toFinset).card ∧
    (∀ v, ChangeAction.remove v ∈ changePlan ["a", "b"] ["b", "c"] ↔
      v ∈ (["a", "b"] : List String) ∧ v ∉ (["b", "c"] : List String)) ∧
    (∀ v, ChangeAction.add v ∈ changePlan ["a", "b"] ["b", "c"] ↔
      v ∈ (["b", "c"] : List String) ∧ v ∉ (["a", "b"] : List String)) ∧
    (changePlan ["a", "b"] ["b", "c"]).Nodup ∧
    (∀ v, v ∈ (["a", "b"] : List String) → v ∈ (["b", "c"] : List String) →
      ChangeAction.remove v ∉ changePlan ["a", "b"] ["b", "c"] ∧
      ChangeAction.add v ∉ changePlan ["a", "b"] ["b", "c"]) :=
  changePlan_minimal ["a", "b"] ["b", "c"] (by decide) (by decide)

/-- Claim C2 (corrected): `Update` tolerates every `DeleteRecord` failure
(the removal of an already-absent value is only logged, and the final
success of the apply is independent of the delete responses), and the
resource `Delete` tolerates exactly the failures containing "404" or
"not found"; but an `Add` whose value already exists is NOT tolerated —
a `Conflict` from `CreateRecord` aborts the update (see the
counterexample). -/
theorem update_tolerates_delete_errors_only (f g h : String → Option String)
    (oldRecords newRecords vs : List String)
    (htol : ∀ v ∈ vs, ∀ e, f v = some e → errTolerated e = true) :
    (updateApply ⟨f, h⟩ oldRecords newRecords).2.2 =
      (updateApply ⟨g, h⟩ oldRecords newRecords).2.2 ∧
    deleteApply f vs = none := by
  constructor
  · show (applyCreates ⟨f, h⟩ (toAdd oldRecords newRecords)).2 =
        (applyCreates ⟨g, h⟩ (toAdd oldRecords newRecords)).2
    rw [applyCreates_congr f g h]
  · exact deleteApply_tolerated f vs htol

/-- Witness for C2: with a delete oracle always failing "not found" the
update's verdict matches the always-successful oracle's, and the
resource Delete completes as success. -/
theorem update_tolerates_delete_errors_only_witness :
    (updateApply ⟨fun _ => some "not found", fun _ => none⟩
        ["10 mail.example.com."] []).2.2 =
      (updateApply ⟨fun _ => none, fun _ => none⟩
        ["10 mail.example.com."] []).2.2 ∧
    deleteApply (fun _ => some "not found") ["gone.example."] = none :=
  update_tolerates_delete_errors_only (fun _ => some "not found")
    (fun _ => none) (fun _ => none) ["10 mail.example.com."] []
    ["gone.example."]
    (by
      intro v _ e he
      injection he with h1
      rw [← h1]
      decide)

/-- Counterexample for C2: an `Add` whose value already exists remotely
(the create oracle answers `Conflict`) makes the apply end with that
fatal error rather than completing as success. -/
theorem add_conflict_fatal :
    updateApply
      { delResult := fun _ => none,
        createResult := fun _ => some "409 Conflict: record already exists" }
      [] ["203.0.113.5"] =
      ([], [], some "409 Conflict: record already exists") := rfl

/-- Claim C3 (corrected): only a `CreateRecord` failure stops `Update`:
the engine keeps the prefix of actions performed before the first failing
addition (all removals plus the additions preceding it — nothing is
rolled back), returns that first failure, and attempts no later addition.
A `DeleteRecord` failure — even a network error — never stops the engine
(see the counterexample). -/
theorem create_failure_stops_update (dir : Directory)
    (oldRecords newRecords pre post : List String) (v e : String)
    (hsplit : toAdd oldRecords newRecords = pre ++ v :: post)
    (hpre : ∀ u ∈ pre, dir.createResult u = none)
    (hv : dir.createResult v = some e) :
    updateApply dir oldRecords newRecords =
      ((applyDeletes dir (toRemove oldRecords newRecords)).1 ++
          pre.map ChangeAction.add,
        (applyDeletes dir (toRemove oldRecords newRecords)).2, some e) := by
  rw [updateApply, hsplit, applyCreates_prefix_error dir post v e pre hpre hv]

/-- Witness for C3: a concrete update whose second addition fails with
"boom" performs the first addition, stops there, and returns "boom". -/
theorem create_failure_stops_update_witness :
    updateApply
      { delResult := fun _ => none,
        createResult := fun u => if u = "y" then some "boom" else none }
      [] ["x", "y", "z"] =
      ((applyDeletes
          { delResult := fun _ => none,
            createResult := fun u => if u = "y" then some "boom" else none }
          (toRemove [] ["x", "y", "z"])).1 ++
          ["x"].map ChangeAction.add,
        (applyDeletes
          { delResult := fun _ => none,
            createResult := fun u => if u = "y" then some "boom" else none }
          (toRemove [] ["x", "y", "z"])).2, some "boom") :=
  create_failure_stops_update _ [] ["x", "y", "z"] ["x"] ["z"] "y" "boom"
    (by decide) (by decide) (by decide)

/-- Counterexample for C3: the first action of the plan is a removal that
fails with a network error — neither `NotFound` nor `Conflict` — yet the
engine does not stop: it attempts the second removal as well and reports
overall success instead of returning the failure. -/
theorem delete_failure_does_not_stop_update :
    updateApply
      { delResult := fun _ => some "network timeout",
        createResult := fun _ => none }
      ["a", "b"] [] =
      ([ChangeAction.remove "a", ChangeAction.remove "b"],
       ["network timeout", "network timeout"], none) := rfl

/-- Claim C1 (corrected): for every record type — CNAME and non-exclusive
types alike — `Update` issues every removal before any addition: whenever
position `i` of the call list holds a `CreateRecord` and position `j`
holds a `DeleteRecord`, then `j < i`.  The source has no per-type
ordering policy at all. -/
theorem update_removals_precede_additions (zone name recordType : String)
    (ttl : Int) (recordClass : String) (oldRecords newRecords : List String)
    (i j : Nat)
    (hi : i < (updateCalls zone name recordType ttl recordClass oldRecords
      newRecords).length)
    (hj : j < (updateCalls zone name recordType ttl recordClass oldRecords
      newRecords).length)
    (hcreate : ((updateCalls zone name recordType ttl recordClass oldRecords
      newRecords).get ⟨i, hi⟩).isDelete = false)
    (hdelete : ((updateCalls zone name recordType ttl recordClass oldRecords
      newRecords).get ⟨j, hj⟩).isDelete = true) :
    j < i := by
  have h1 := (updateCalls_isDelete_iff zone name recordType ttl recordClass
    oldRecords newRecords j hj).mp hdelete
  have h2 : ¬ i < (toRemove oldRecords newRecords).length := by
    intro hlt
    have h3 := (updateCalls_isDelete_iff zone name recordType ttl recordClass
      oldRecords newRecords i hi).mpr hlt
    rw [hcreate] at h3
    exact Bool.false_ne_true h3
  omega

/-- Witness for C1: on a concrete A-record update whose call list is a
deletion followed by a creation, the creation index 1 is after the
deletion index 0. -/
theorem update_removals_precede_additions_witness : (0 : Nat) < 1 :=
  update_removals_precede_additions "example.com" "www" "A" 300 "IN"
    ["192.0.2.1"] ["192.0.2.7"] 1 0 (by decide) (by decide) (by decide)
    (by decide)

/-- Counterexample for C1: for the non-exclusive type A, replacing one
address by another issues the `DeleteRecord` before the `CreateRecord`,
not additions first as claimed. -/
theorem update_addition_not_first_for_A :
    updateCalls "example.com" "www" "A" 300 "IN" ["192.0.2.1"]
      ["192.0.2.7"] =
      [ApiCall.deleteRecord "example.com" "www" "A" "192.0.2.1",
       ApiCall.createRecord "example.com" "www" "A" 300 "IN"
         [("address", "192.0.2.7")]] := by decide

/-- Claim C5 (confirmed): reconciliation is idempotent.  Running `Update`
a second time with the same desired record list, against the zone state
produced by a first successful application of that list, yields an empty
change plan: no `DeleteRecord` and no `CreateRecord` call is issued the
second time. -/
theorem second_update_empty_plan (zone name recordType : String) (ttl : Int)
    (recordClass : String) (observed desired : List String) :
    changePlan (runUpdateState observed observed desired) desired = [] ∧
    updateCalls zone name recordType ttl recordClass
      (runUpdateState observed observed desired) desired = [] := by
  have hrem : toRemove (runUpdateState observed observed desired) desired = [] :=
    toRemove_eq_nil _ _ (fun v hv => (mem_runUpdateState_self _ _ v).mp hv)
  have hadd : toAdd (runUpdateState observed observed desired) desired = [] :=
    toAdd_eq_nil _ _ (fun v hv => (mem_runUpdateState_self _ _ v).mpr hv)
  constructor
  · rw [changePlan, hrem, hadd]; rfl
  · rw [updateCalls, hrem, hadd]; rfl

/-- Claim C7 (corrected): when the desired and observed record lists hold
exactly the same values, `Update` issues no remote call at all, whatever
TTL the plan declares: the stored TTL is never compared against the
planned one, no `RefreshMetadata` action exists in the provider, and a
pure TTL change therefore results in an empty plan. -/
theorem same_values_no_calls_despite_ttl (zone name recordType : String)
    (ttl : Int) (recordClass : String) (oldRecords newRecords : List String)
    (h : ∀ x, x ∈ oldRecords ↔ x ∈ newRecords) :
    updateCalls zone name recordType ttl recordClass oldRecords newRecords
      = [] := by
  rw [updateCalls, toRemove_eq_nil _ _ (fun v hv => (h v).mp hv),
    toAdd_eq_nil _ _ (fun v hv => (h v).mpr hv)]
  rfl

/-- Witness for C7: the same-values update with a changed TTL issues no
remote call on a concrete input. -/
theorem same_values_no_calls_witness :
    updateCalls "zone.example" "www" "A" 42 "IN" ["198.51.100.9"]
      ["198.51.100.9"] = [] :=
  same_values_no_calls_despite_ttl "zone.example" "www" "A" 42 "IN"
    ["198.51.100.9"] ["198.51.100.9"] (fun _ => Iff.rfl)

/-- Counterexample for C7: desired and observed values agree while the
declared TTL changed from 300 to 600, yet the change plan is empty — no
`RefreshMetadata` action (no such action exists) and no remove+add pair
is emitted, contradicting the claim that the plan is non-empty. -/
theorem ttl_change_empty_plan :
    updateCalls "example.com" "www" "A" 600 "IN" ["192.0.2.1"]
      ["192.0.2.1"] = [] := by decide

/-- Unfolding of `buildRecordData` at type MX. -/
theorem buildRecordData_MX (rdata : String) :
    buildRecordData "MX" rdata =
      (if (splitN rdata 2).length = 2 then
        [("preference", (splitN rdata 2).getD 0 ""),
         ("exchange", (splitN rdata 2).getD 1 "")]
      else []) := rfl

/-- Unfolding of `buildRecordData` at type SRV. -/
theorem buildRecordData_SRV (rdata : String) :
    buildRecordData "SRV" rdata =
      (if (splitN rdata 4).length = 4 then
        [("priority", (splitN rdata 4).getD 0 ""),
         ("weight", (splitN rdata 4).getD 1 ""),
         ("port", (splitN rdata 4).getD 2 ""),
         ("target", (splitN rdata 4).getD 3 "")]
      else []) := rfl

/-- Unfolding of `buildRecordData` at type CAA. -/
theorem buildRecordData_CAA (rdata : String) :
    buildRecordData "CAA" rdata =
      (if (splitN rdata 3).length = 3 then
        [("flags", (splitN rdata 3).getD 0 ""),
         ("tag", (splitN rdata 3).getD 1 ""),
         ("value", trimQuotes ((splitN rdata 3).getD 2 ""))]
      else []) := rfl

/-- Unfolding of `setComputedAttributes` at type MX with one value. -/
theorem setComputedAttributes_MX (rdata : String) :
    setComputedAttributes "MX" [rdata] =
      (if (splitN rdata 2).length = 2 then
        { (match parseInt64 ((splitN rdata 2).getD 0 "") with
           | some p => { defaultAttrs with priority := p }
           | none => defaultAttrs) with
          target := (splitN rdata 2).getD 1 "" }
      else defaultAttrs) := rfl

/-- Claim C6 (corrected): decoding malformed rdata never fails — there is
no `MalformedRecordData` error anywhere in the provider.  A raw string
whose space-separated field count does not match the type's arity yields
a create-request data map with NO fields set (MX, SRV, CAA), and a
numeric field that does not parse as an integer silently leaves the
corresponding convenience attribute at its zero default while the other
fields are still populated. -/
theorem malformed_rdata_silently_defaults :
    (∀ rdata : String, (splitN rdata 2).length ≠ 2 →
      buildRecordData "MX" rdata = []) ∧
    (∀ rdata : String, (splitN rdata 4).length ≠ 4 →
      buildRecordData "SRV" rdata = []) ∧
    (∀ rdata : String, (splitN rdata 3).length ≠ 3 →
      buildRecordData "CAA" rdata = []) ∧
    (∀ rdata a b : String, splitN rdata 2 = [a, b] → parseInt64 a = none →
      setComputedAttributes "MX" [rdata] =
        { defaultAttrs with target := b }) := by
  refine ⟨fun rdata h => ?_, fun rdata h => ?_, fun rdata h => ?_,
    fun rdata a b hsp hpa => ?_⟩
  · rw [buildRecordData_MX, if_neg h]
  · rw [buildRecordData_SRV, if_neg h]
  · rw [buildRecordData_CAA, if_neg h]
  · rw [setComputedAttributes_MX, hsp]
    simp [hpa, List.getD]

/-- Witness for C6: concrete arity-mismatched MX/SRV/CAA strings decode
to the empty data map, and a non-numeric MX preference leaves priority at
its zero default while the exchange is still taken. -/
theorem malformed_rdata_silently_defaults_witness :
    buildRecordData "MX" "20" = [] ∧
    buildRecordData "SRV" "10 60 5060" = [] ∧
    buildRecordData "CAA" "0 issue" = [] ∧
    setComputedAttributes "MX" ["ten mail.example.com."] =
      { defaultAttrs with target := "mail.example.com." } :=
  ⟨malformed_rdata_silently_defaults.1 "20" (by decide),
   malformed_rdata_silently_defaults.2.1 "10 60 5060" (by decide),
   malformed_rdata_silently_defaults.2.2.1 "0 issue" (by decide),
   malformed_rdata_silently_defaults.2.2.2 "ten mail.example.com." "ten"
     "mail.example.com." (by decide) (by decide)⟩

/-- Counterexample for C6: the one-field MX rdata "10" (arity 2 expected)
decodes without any error into the empty data map, and a three-field SRV
rdata (arity 4 expected) silently yields all-default convenience
attributes — no `MalformedRecordData` failure occurs. -/
theorem malformed_rdata_no_error :
    buildRecordData "MX" "10" = [] ∧
    setComputedAttributes "SRV" ["10 60 sip.example.com."] = defaultAttrs :=
  ⟨rfl, rfl⟩

/-- Claim C8 (corrected): the zone `Create` performs no local glue
validation at all.  For every configuration it builds a single remote
`CreateZone` request carrying the nameservers and the glue map verbatim
and its outcome is decided solely by the remote response: a remote error
is surfaced, a remote success is stored.  No `MissingGlueRecord` check
runs before the remote call (see the counterexample for the spec's own
scenario). -/
theorem zone_create_no_local_glue_validation (plan : ZonePlanModel)
    (remote : ZoneCreateRequest → Except String ZoneInfo) :
    (buildZoneCreateRequest plan).nameservers = plan.nameservers.getD [] ∧
    (buildZoneCreateRequest plan).nsAddresses = plan.nsAddresses.getD [] ∧
    (∀ e, remote (buildZoneCreateRequest plan) = Except.error e →
      zoneCreate plan remote =
        Except.error ("Could not create zone: " ++ e)) ∧
    (∀ z, remote (buildZoneCreateRequest plan) = Except.ok z →
      ∃ st : ZoneStateModel, zoneCreate plan remote = Except.ok st ∧
        st.plan = plan) := by
  refine ⟨rfl, rfl, fun e he => ?_, fun z hz => ?_⟩
  · rw [zoneCreate, he]
  · exact ⟨{ plan := plan
             id := z.name
             serial := z.serial
             loaded := z.loaded
             dnssecEnabled := z.dnssecEnabled
             file := if z.file ≠ "" then some z.file else plan.file },
      by rw [zoneCreate, hz], rfl⟩

/-- Witness for C8: with a remote oracle that rejects the request, the
zone `Create` for the spec's glue scenario surfaces exactly the remote
error — the only failure path it has. -/
theorem zone_create_no_local_glue_validation_witness :
    zoneCreate
      { name := "example.com"
        zoneType := "master"
        soaMname := "ns1"
        soaRname := "hostmaster"
        soaRefresh := 86400
        soaRetry := 7200
        soaExpire := 3600000
        soaMinimum := 3600
        defaultTTL := 3600
        file := none
        nameservers := some ["ns1.example.com"]
        nsAddresses := none
        allowUpdate := none
        allowTransfer := none
        allowQuery := none }
      (fun _ => Except.error "boom") =
      Except.error ("Could not create zone: " ++ "boom") :=
  (zone_create_no_local_glue_validation
    { name := "example.com"
      zoneType := "master"
      soaMname := "ns1"
      soaRname := "hostmaster"
      soaRefresh := 86400
      soaRetry := 7200
      soaExpire := 3600000
      soaMinimum := 3600
      defaultTTL := 3600
      file := none
      nameservers := some ["ns1.example.com"]
      nsAddresses := none
      allowUpdate := none
      allowTransfer := none
      allowQuery := none }
    (fun _ => Except.error "boom")).2.2.1 "boom" rfl

/-- Counterexample for C8: the spec's scenario — zone "example.com"
declaring the in-zone nameserver "ns1.example.com" with no glue entry —
is not rejected locally: `Create` issues the remote `CreateZone` call and
succeeds whenever the remote accepts, with no `MissingGlueRecord`
error. -/
theorem zone_create_glue_scenario_not_rejected :
    zoneCreate
      { name := "example.com"
        zoneType := "master"
        soaMname := "ns1"
        soaRname := "hostmaster"
        soaRefresh := 86400
        soaRetry := 7200
        soaExpire := 3600000
        soaMinimum := 3600
        defaultTTL := 3600
        file := none
        nameservers := some ["ns1.example.com"]
        nsAddresses := none
        allowUpdate := none
        allowTransfer := none
        allowQuery := none }
      (fun _ => Except.ok
        { name := "example.com"
          serial := 2024010101
          loaded := true
          dnssecEnabled := false
          file := "/etc/bind/db.example.com" }) =
      Except.ok
        { plan :=
            { name := "example.com"
              zoneType := "master"
              soaMname := "ns1"
              soaRname := "hostmaster"
              soaRefresh := 86400
              soaRetry := 7200
              soaExpire := 3600000
              soaMinimum := 3600
              defaultTTL := 3600
              file := none
              nameservers := some ["ns1.example.com"]
              nsAddresses := none
              allowUpdate := none
              allowTransfer := none
              allowQuery := none }
          id := "example.com"
          serial := 2024010101
          loaded := true
          dnssecEnabled := false
          file := some "/etc/bind/db.example.com" } := rfl

/-- Claim C9 (confirmed): when the read-back succeeds but returns zero
matching records, `Read` keeps the stored state verbatim — no attribute
is modified and the resource is not removed from state. -/
theorem read_zero_records_keeps_state (state : RecordModel) :
    readRecord state (ReadResult.ok []) = ReadOutcome.newState state := rfl

/-- Claim C10 (confirmed): the nine convenience attributes are computed
from the first record value only — the tail of the list never influences
them — and for an empty list every string attribute is the empty string
and every numeric attribute is 0 (the Go code writes concrete zero
values, never null). -/
theorem computed_attrs_first_value_only (recordType : String) :
    setComputedAttributes recordType [] =
      { address := "", target := "", priority := 0, weight := 0, port := 0,
        text := "", flags := 0, tag := "", value := "" } ∧
    ∀ (v : String) (rest rest' : List String),
      setComputedAttributes recordType (v :: rest) =
        setComputedAttributes recordType (v :: rest') :=
  ⟨rfl, fun _ _ _ => rfl⟩

end Bind9
